import Mathlib

/-!
Shallow embedding of the wishlist-frontend client (React SPA).

The pure decision logic of the client is translated into Lean definitions:
event handlers on the wishlist-detail page become pure list transformers,
the axios response interceptor becomes a function on an explicit local-storage
record, modal submit handlers become functions from the request outcome to the
resulting component state and observable effects, and the utility functions of
`src/utils/helpers.js` are translated directly.  JavaScript truthiness on
strings (`""` is falsy) is modelled explicitly where the code relies on it.
-/

/-- JavaScript `a || b` where `a` is a possibly-absent string: both `undefined`
(absent, `none`) and the empty string are falsy and fall through to `b`. -/
def jsOrStr (a : Option String) (b : String) : String :=
  match a with
  | some s => if s = "" then b else s
  | none => b

/-- JavaScript `a || b` on two strings: the empty string is falsy. -/
def jsOr2 (a b : String) : String :=
  if a = "" then b else a

/-- `listStarts p l` : the character list `l` begins with the character list `p`. -/
def listStarts : List Char → List Char → Bool
  | [], _ => true
  | _ :: _, [] => false
  | a :: p, b :: l => a == b && listStarts p l

/-- `strStarts s p` : the string `s` begins with the string `p`.  This is the
semantics of the anchored regular-expression test `url.match(/^https?:\/\//)`
used in `helpers.js` (instantiated at the two literal protocols). -/
def strStarts (s p : String) : Bool :=
  listStarts p.data s.data

/-- From `src/src/utils/helpers.js`, `ensureUrlProtocol`: a falsy url (here:
the empty string) is returned as is; a url that already carries an
`http://` or `https://` protocol is returned as is; otherwise `https://`
is prepended. -/
def ensureUrlProtocol (url : String) : String :=
  if url = "" then url
  else if strStarts url "http://" || strStarts url "https://" then url
  else "https://" ++ url

/-- Currency symbols used by the en-US locale for the currencies offered in
the add-product form (`USD EUR GBP CAD AUD JPY`). -/
def currencySymbol : String → String
  | "USD" => "$"
  | "EUR" => "€"
  | "GBP" => "£"
  | "CAD" => "CA$"
  | "AUD" => "A$"
  | "JPY" => "¥"
  | c => c ++ " "

/-- Insert a thousands separator every three characters, on a reversed digit
list. -/
def groupRev : List Char → List Char
  | [] => []
  | [a] => [a]
  | [a, b] => [a, b]
  | [a, b, c] => [a, b, c]
  | a :: b :: c :: rest => a :: b :: c :: ',' :: groupRev rest

/-- Digits of a natural number with en-US thousands grouping. -/
def groupedNat (n : Nat) : String :=
  String.mk (groupRev (toString n).data.reverse).reverse

/-- Modelled from the spec: `formatCurrency` in `src/src/utils/helpers.js`
delegates to the browser API `Intl.NumberFormat('en-US', { style: 'currency',
currency })`, which is not part of this repository.  Following the spec's
description (en-US currency rendering, currency symbol, two decimal places),
the amount is taken as an exact rational, rounded to a whole number of cents,
and rendered as sign, symbol, grouped integer part, and a two-digit fraction.
The source's default currency is `'USD'`; call sites here always pass the
currency explicitly. -/
def formatCurrency (amount : ℚ) (currency : String) : String :=
  let cents : Int := ⌊amount * 100 + 1 / 2⌋
  let n : Nat := cents.natAbs
  let intStr := groupedNat (n / 100)
  let frac := n % 100
  let fracStr := (if frac < 10 then "0" else "") ++ toString frac
  (if cents < 0 then "-" else "") ++ currencySymbol currency ++ intStr ++ "." ++ fracStr

/-- JavaScript `String.prototype.trim()`: strip leading and trailing
whitespace.  (Lean's own `String.trim` is defined through well-founded
recursion on substrings and is kept out of the embedding so that concrete
inputs evaluate.) -/
def strTrim (s : String) : String :=
  String.mk (((s.data.dropWhile Char.isWhitespace).reverse.dropWhile Char.isWhitespace).reverse)

/-- A reaction attached to a product: author and emoji
(`product.reactions[i].user._id` / `.emoji`). -/
structure Reaction where
  userId : String
  emoji : String
deriving DecidableEq

/-- The fields of a product record that the verified handlers consult:
its id, the id of the wishlist it belongs to, its name, and its reactions. -/
structure Product where
  _id : String
  wishlist : String
  name : String
  reactions : List Reaction
deriving DecidableEq

/-- Payload of a `product-added` / `product-updated` socket event. -/
structure ProductEvent where
  wishlistId : String
  product : Product
deriving DecidableEq

/-- Payload of a `product-deleted` socket event. -/
structure ProductDeletedEvent where
  wishlistId : String
  productId : String
deriving DecidableEq

/-- `WishlistDetail.handleProductAdded` (`src/unnamed/part_000`):
if the event is for this page's wishlist, prepend the carried product,
otherwise leave the list unchanged. -/
def handleProductAdded (id : String) (prev : List Product) (data : ProductEvent) :
    List Product :=
  if data.wishlistId = id then data.product :: prev else prev

/-- `WishlistDetail.handleProductUpdated`: if the event is for this page's
wishlist, map over the list replacing every element whose `_id` equals the
carried product's `_id` by the carried product. -/
def handleProductUpdated (id : String) (prev : List Product) (data : ProductEvent) :
    List Product :=
  if data.wishlistId = id then
    prev.map (fun p => if p._id = data.product._id then data.product else p)
  else prev

/-- `WishlistDetail.handleProductDeleted`: if the event is for this page's
wishlist, keep exactly the elements whose `_id` differs from the carried
`productId`. -/
def handleProductDeleted (id : String) (prev : List Product) (data : ProductDeletedEvent) :
    List Product :=
  if data.wishlistId = id then
    prev.filter (fun p => p._id != data.productId)
  else prev

/-- The two entries of local browser storage that the client persists
(`'token'` and `'user'`); `none` models an absent key. -/
structure LocalStorage where
  token : Option String
  user : Option String
deriving DecidableEq

/-- The part of an axios error response consulted by the client:
`error.response.status`, `error.response.statusText`, and
`error.response.data?.message` (absent `data` or `message` is `none`). -/
structure ErrorResponse where
  status : Nat
  statusText : String
  dataMessage : Option String
deriving DecidableEq

/-- An axios request error: `response` is present when the server answered,
`request` is true when the request went out at all, and `message` is the
generic JS error message. -/
structure ApiError where
  response : Option ErrorResponse
  request : Bool
  message : Option String
deriving DecidableEq

/-- Observable outcome of the axios response interceptor on an error
(`src/src/services/api.js`): resulting local storage, navigation target
(`window.location.href` assignment, if any), and the value the promise is
rejected with. -/
structure InterceptorResult where
  storage : LocalStorage
  navigatedTo : Option String
  rejectedWith : ApiError
deriving DecidableEq

/-- The error branch of `api.interceptors.response` in
`src/src/services/api.js`: when `error.response?.status === 401`, remove the
`'token'` and `'user'` entries from local storage and navigate to `/login`;
in every case the error is passed on with `Promise.reject(error)`. -/
def responseInterceptorOnError (st : LocalStorage) (err : ApiError) : InterceptorResult :=
  if (match err.response with
      | some r => r.status == 401
      | none => false) then
    { storage := { token := none, user := none },
      navigatedTo := some "/login",
      rejectedWith := err }
  else
    { storage := st, navigatedTo := none, rejectedWith := err }

/-- The fields of a wishlist record carried by the join response
(`response.data.wishlist`). -/
structure Wishlist where
  _id : String
  title : String
deriving DecidableEq

/-- The component state of `JoinWishlistModal` that `handleSubmit` touches. -/
structure JoinModalState where
  inviteCode : String
  error : String
  isLoading : Bool
deriving DecidableEq

/-- Observable outcome of one run of `JoinWishlistModal.handleSubmit`:
resulting component state, the invite code sent to `joinByInvite` (if a
request was made), the wishlist passed to `onSuccess` (if it was called),
and whether `onClose` was called. -/
structure JoinSubmitResult where
  state : JoinModalState
  requested : Option String
  onSuccessArg : Option Wishlist
  onCloseCalled : Bool
deriving DecidableEq

/-- `JoinWishlistModal.handleSubmit` (`src/src/components/JoinWishlistModal.jsx`):
an all-whitespace code returns early; otherwise `joinByInvite` is called on the
trimmed code.  On success `onSuccess(response.data.wishlist)` is called, the
invite code is cleared and `onClose()` is called; on rejection the error state
becomes `error.response?.data?.message || 'Failed to join wishlist'` and
neither `onSuccess` nor `onClose` runs, the invite code staying as entered.
`api` is the outcome of the `joinByInvite` request, its error carrying the
optional server message. -/
def joinHandleSubmit (st : JoinModalState)
    (api : String → Except (Option String) Wishlist) : JoinSubmitResult :=
  if strTrim st.inviteCode = "" then
    { state := st, requested := none, onSuccessArg := none, onCloseCalled := false }
  else
    match api (strTrim st.inviteCode) with
    | .ok w =>
        { state := { inviteCode := "", error := "", isLoading := false },
          requested := some (strTrim st.inviteCode),
          onSuccessArg := some w,
          onCloseCalled := true }
    | .error e =>
        { state := { inviteCode := st.inviteCode,
                     error := jsOrStr e "Failed to join wishlist",
                     isLoading := false },
          requested := some (strTrim st.inviteCode),
          onSuccessArg := none,
          onCloseCalled := false }

/-- The reactions of a product that belong to the given user. -/
def userReactions (user : String) (rs : List Reaction) : List Reaction :=
  rs.filter (fun r => r.userId == user)

/-- Modelled from the spec: the server-side effect of
`DELETE /products/:id/reactions` (`productsAPI.removeReaction`), which is not
part of this repository — it removes the calling user's reaction from the
product (at most one per user per product per the spec's data model). -/
def removeReactionEffect (user : String) (rs : List Reaction) : List Reaction :=
  rs.filter (fun r => r.userId != user)

/-- Modelled from the spec: the server-side effect of
`POST /products/:id/reactions` (`productsAPI.addReaction`), which is not part
of this repository — it attaches a reaction by the calling user with the given
emoji to the product. -/
def addReactionEffect (user emoji : String) (rs : List Reaction) : List Reaction :=
  rs ++ [{ userId := user, emoji := emoji }]

/-- `ProductCard.handleReaction` (ProductCard component): compute
`userReaction = product.reactions?.find(r => r.user._id === user?.id)`;
if it exists, call `removeReaction`; if it does not exist or its emoji differs
from the chosen one, call `addReaction` with the chosen emoji.  The value is
the product's reaction list after the issued REST calls take effect. -/
def handleReaction (user emoji : String) (rs : List Reaction) : List Reaction :=
  let ur := rs.find? (fun r => r.userId == user)
  let rs1 := if ur.isSome then removeReactionEffect user rs else rs
  match ur with
  | none => addReactionEffect user emoji rs1
  | some r => if r.emoji != emoji then addReactionEffect user emoji rs1 else rs1

/-- The `disabled` condition of the submit control of `AddProductModal`
(`src/src/components/AddProductModal.jsx`):
`disabled={isLoading || !formData.name.trim()}`. -/
def addProductSubmitDisabled (isLoading : Bool) (name : String) : Bool :=
  isLoading || (strTrim name == "")

/-- The error-message categorization of `ImageUpload.onDrop`
(`src/src/components/ImageUpload.jsx`): with a server response, the message is
`err.response.data?.message || err.response.statusText || 'Upload failed'`,
overridden for HTTP 503 by the service-not-configured message; with a request
but no response, a generic connectivity message; otherwise
`err.message || 'Upload failed'`. -/
def uploadErrorMessage (err : ApiError) : String :=
  match err.response with
  | some r =>
      let base := jsOrStr r.dataMessage (jsOr2 r.statusText "Upload failed")
      if r.status == 503 then
        "Image upload service not configured. Please check server configuration."
      else base
  | none =>
      if err.request then
        "Unable to connect to server. Please check your connection."
      else jsOrStr err.message "Upload failed"

/-- The payload the add-product form submits (`productsAPI.create`). -/
structure ProductData where
  name : String
  wishlistId : String
deriving DecidableEq

/-- The REST calls and socket emissions a client handler can perform, in
order. -/
inductive ClientAction where
  | restCreateProduct (data : ProductData)
  | restDeleteProduct (productId : String)
  | restUpdateProduct (productId : String)
  | emitProductAdded (wishlistId : String) (product : Product)
  | emitProductUpdated (wishlistId : String) (product : Product)
  | emitProductDeleted (wishlistId : String) (productId : String)
deriving DecidableEq

/-- Action trace of `WishlistDetail.handleAddProduct` (`src/unnamed/part_000`):
`productsAPI.create(productData)` is awaited; on success the response product
is prepended locally and `emitProductAdded({ wishlistId: id, product })` is
sent; on rejection the error is rethrown and nothing is emitted. -/
def handleAddProductActions (id : String) (data : ProductData)
    (result : Except (Option String) Product) : List ClientAction :=
  match result with
  | .ok p => [.restCreateProduct data, .emitProductAdded id p]
  | .error _ => [.restCreateProduct data]

/-- Action trace of `ProductCard.handleDelete`: after a confirmation dialog,
`productsAPI.delete(product._id)` is awaited; on success
`emitProductDeleted({ wishlistId: product.wishlist, productId: product._id })`
is sent; on rejection nothing is emitted. -/
def productCardDeleteActions (p : Product) (confirmed : Bool)
    (result : Except (Option String) Unit) : List ClientAction :=
  if confirmed then
    match result with
    | .ok _ => [.restDeleteProduct p._id, .emitProductDeleted p.wishlist p._id]
    | .error _ => [.restDeleteProduct p._id]
  else []

/-- Action trace of the only Edit control for a product (the `Edit` item of
the `ProductCard` menu): its `onClick` body is empty (a `TODO` comment), so it
performs no REST call and no emission. -/
def productCardEditActions : List ClientAction := []

/-- The three product mutation kinds named by the spec. -/
inductive ProductMutation where
  | create
  | update
  | delete
deriving DecidableEq

/-- Whether the client has an entry point that performs the given product
mutation (REST call plus socket emission).  From the source: create →
`WishlistDetail.handleAddProduct`; delete → `ProductCard.handleDelete`;
update → none: the only Edit control has an empty `onClick` handler marked
`TODO`, and no code in the client calls `productsAPI.update` or
`socketService.emitProductUpdated`. -/
def clientMutationEntryPoint : ProductMutation → Bool
  | .create => true
  | .delete => true
  | .update => false

/-- Sample records used to instantiate hypotheses at concrete inputs. -/
def sampleProduct0 : Product :=
  { _id := "p0", wishlist := "w1", name := "Mug", reactions := [] }

def sampleProduct1 : Product :=
  { _id := "p1", wishlist := "w1", name := "Lamp", reactions := [] }

def sampleData : ProductData :=
  { name := "Lamp", wishlistId := "w1" }

theorem listStarts_self_append (p l : List Char) : listStarts p (p ++ l) = true := by
  induction p with
  | nil => rfl
  | cons a as ih => simp [listStarts, ih]

/-- Claim C8: formatCurrency renders its amount in the given currency in the
en-US style with two decimal places: amount 0 in USD gives `$0.00` and amount
12.5 in EUR gives `€12.50`. -/
theorem formatCurrency_examples :
    formatCurrency 0 "USD" = "$0.00" ∧ formatCurrency (25 / 2) "EUR" = "€12.50" := by
  constructor
  · have h : ⌊(0 : ℚ) * 100 + 1 / 2⌋ = (0 : ℤ) := by norm_num
    simp only [formatCurrency]
    rw [h]
    decide
  · have h : ⌊(25 / 2 : ℚ) * 100 + 1 / 2⌋ = (1250 : ℤ) := by norm_num
    simp only [formatCurrency]
    rw [h]
    decide

/-- Claim C9: for every non-empty url, ensureUrlProtocol returns the input
unchanged when it begins with `http://` or `https://`, and otherwise returns
the input prefixed with `https://`. -/
theorem ensureUrlProtocol_spec (url : String) (h : url ≠ "") :
    ((strStarts url "http://" || strStarts url "https://") = true →
      ensureUrlProtocol url = url) ∧
    ((strStarts url "http://" || strStarts url "https://") = false →
      ensureUrlProtocol url = "https://" ++ url) := by
  constructor
  · intro hs
    unfold ensureUrlProtocol
    rw [if_neg h, if_pos hs]
  · intro hs
    unfold ensureUrlProtocol
    rw [if_neg h, if_neg (by simp [hs])]

theorem ensureUrlProtocol_spec_witness :
    ensureUrlProtocol "example.com" = "https://example.com" ∧
    ensureUrlProtocol "http://x.com" = "http://x.com" :=
  ⟨(ensureUrlProtocol_spec "example.com" (by decide)).2 (by decide),
   (ensureUrlProtocol_spec "http://x.com" (by decide)).1 (by decide)⟩

/-- Claim C10: ensureUrlProtocol is idempotent on every string, the empty
string included: every output is either empty (passed through) or begins with
one of the two protocols and is left unchanged by a second application. -/
theorem ensureUrlProtocol_idem (url : String) :
    ensureUrlProtocol (ensureUrlProtocol url) = ensureUrlProtocol url := by
  by_cases h0 : url = ""
  · subst h0; rfl
  · by_cases h1 : (strStarts url "http://" || strStarts url "https://") = true
    · have e : ensureUrlProtocol url = url := by
        unfold ensureUrlProtocol; rw [if_neg h0, if_pos h1]
      rw [e]; exact e
    · have hb : (strStarts url "http://" || strStarts url "https://") = false := by
        simpa using h1
      have e : ensureUrlProtocol url = "https://" ++ url := by
        unfold ensureUrlProtocol; rw [if_neg h0, if_neg (by simp [hb])]
      rw [e]
      have hne : ("https://" ++ url) ≠ "" := by
        intro hcontr
        have h2 : "https://".data ++ url.data = ([] : List Char) :=
          congrArg String.data hcontr
        have h3 := List.append_eq_nil.mp h2
        exact absurd h3.1 (by decide)
      have hs2 : strStarts ("https://" ++ url) "https://" = true := by
        show listStarts "https://".data ("https://".data ++ url.data) = true
        exact listStarts_self_append _ _
      unfold ensureUrlProtocol
      rw [if_neg hne, if_pos (by simp [hs2])]

/-- Claim C1: an incoming socket event whose wishlistId differs from the
page's wishlist id leaves the product list unchanged; on a match,
product-added prepends the carried product, product-updated replaces exactly
the elements whose `_id` equals the carried product's `_id` (positionally, all
others unchanged), and product-deleted removes exactly the elements whose
`_id` equals the carried productId, keeping the rest in order. -/
theorem socketHandlers_spec (id : String) (prev : List Product)
    (a u : ProductEvent) (d : ProductDeletedEvent) :
    (a.wishlistId ≠ id → handleProductAdded id prev a = prev) ∧
    (u.wishlistId ≠ id → handleProductUpdated id prev u = prev) ∧
    (d.wishlistId ≠ id → handleProductDeleted id prev d = prev) ∧
    (a.wishlistId = id → handleProductAdded id prev a = a.product :: prev) ∧
    (u.wishlistId = id → ∀ i : Nat,
      (handleProductUpdated id prev u)[i]? =
        (prev[i]?).map (fun p => if p._id = u.product._id then u.product else p)) ∧
    (d.wishlistId = id →
      List.Sublist (handleProductDeleted id prev d) prev ∧
      ∀ p : Product, p ∈ handleProductDeleted id prev d ↔
        p ∈ prev ∧ p._id ≠ d.productId) := by
  refine ⟨?_, ?_, ?_, ?_, ?_, ?_⟩
  · intro h; unfold handleProductAdded; rw [if_neg h]
  · intro h; unfold handleProductUpdated; rw [if_neg h]
  · intro h; unfold handleProductDeleted; rw [if_neg h]
  · intro h; unfold handleProductAdded; rw [if_pos h]
  · intro h i
    unfold handleProductUpdated
    rw [if_pos h]
    exact List.getElem?_map _ _ _
  · intro h
    unfold handleProductDeleted
    rw [if_pos h]
    refine ⟨List.filter_sublist _, ?_⟩
    intro p
    simp [List.mem_filter, bne_iff_ne]

theorem socketHandlers_spec_witness :
    handleProductAdded "w1" [sampleProduct0]
      { wishlistId := "w1", product := sampleProduct1 } =
      [sampleProduct1, sampleProduct0] ∧
    handleProductAdded "w1" [sampleProduct0]
      { wishlistId := "w2", product := sampleProduct1 } =
      [sampleProduct0] :=
  ⟨(socketHandlers_spec "w1" [sampleProduct0]
      { wishlistId := "w1", product := sampleProduct1 }
      { wishlistId := "w1", product := sampleProduct1 }
      { wishlistId := "w1", productId := "p0" }).2.2.2.1 rfl,
   (socketHandlers_spec "w1" [sampleProduct0]
      { wishlistId := "w2", product := sampleProduct1 }
      { wishlistId := "w1", product := sampleProduct1 }
      { wishlistId := "w1", productId := "p0" }).1 (by decide)⟩

/-- Claim C3: on an error whose response has HTTP status 401, the interceptor
removes both the token and the user entry from local storage and navigates to
the login view; on any other error it leaves local storage unchanged; in both
cases the error is passed on to the caller. -/
theorem responseInterceptor_spec (st : LocalStorage) (err : ApiError) :
    (∀ r, err.response = some r → r.status = 401 →
      (responseInterceptorOnError st err).storage.token = none ∧
      (responseInterceptorOnError st err).storage.user = none ∧
      (responseInterceptorOnError st err).navigatedTo = some "/login" ∧
      (responseInterceptorOnError st err).rejectedWith = err) ∧
    ((∀ r, err.response = some r → r.status ≠ 401) →
      (responseInterceptorOnError st err).storage = st ∧
      (responseInterceptorOnError st err).navigatedTo = none ∧
      (responseInterceptorOnError st err).rejectedWith = err) := by
  constructor
  · intro r hr h401
    unfold responseInterceptorOnError
    rw [hr]
    simp [h401]
  · intro hother
    unfold responseInterceptorOnError
    cases hresp : err.response with
    | none => simp
    | some r =>
      have hne := hother r hresp
      have hb : (r.status == 401) = false := beq_eq_false_iff_ne.mpr hne
      simp [hb]

theorem responseInterceptor_spec_witness :
    (responseInterceptorOnError { token := some "tok", user := some "usr" }
        { response := some { status := 401, statusText := "Unauthorized", dataMessage := none },
          request := true, message := none }).storage.token = none ∧
    (responseInterceptorOnError { token := some "tok", user := some "usr" }
        { response := some { status := 404, statusText := "Not Found", dataMessage := none },
          request := true, message := none }).storage =
      { token := some "tok", user := some "usr" } :=
  ⟨((responseInterceptor_spec { token := some "tok", user := some "usr" }
      { response := some { status := 401, statusText := "Unauthorized", dataMessage := none },
        request := true, message := none }).1
      { status := 401, statusText := "Unauthorized", dataMessage := none } rfl rfl).1,
   ((responseInterceptor_spec { token := some "tok", user := some "usr" }
      { response := some { status := 404, statusText := "Not Found", dataMessage := none },
        request := true, message := none }).2
      (by intro r hr; cases hr; decide)).1⟩

def sampleJoinApi : String → Except (Option String) Wishlist :=
  fun _ => .error (some "Invalid invite code")

/-- Claim C4: when the joinByInvite request rejects, the modal's error state
becomes the server-provided message (falling back to a fixed message when none
is present), onClose is not called, onSuccess is not called, and the entered
invite code is kept; onClose and onSuccess run only on a successful
response. -/
theorem joinHandleSubmit_spec (st : JoinModalState)
    (api : String → Except (Option String) Wishlist)
    (h : strTrim st.inviteCode ≠ "") :
    (∀ e, api (strTrim st.inviteCode) = .error e →
      (joinHandleSubmit st api).state.error = jsOrStr e "Failed to join wishlist" ∧
      (joinHandleSubmit st api).onCloseCalled = false ∧
      (joinHandleSubmit st api).onSuccessArg = none ∧
      (joinHandleSubmit st api).state.inviteCode = st.inviteCode) ∧
    ((joinHandleSubmit st api).onCloseCalled = true →
      ∃ w, api (strTrim st.inviteCode) = .ok w) ∧
    (∀ w, (joinHandleSubmit st api).onSuccessArg = some w →
      api (strTrim st.inviteCode) = .ok w) := by
  unfold joinHandleSubmit
  rw [if_neg h]
  cases hres : api (strTrim st.inviteCode) with
  | ok w =>
    refine ⟨?_, ?_, ?_⟩
    · intro e he; simp at he
    · intro _; exact ⟨w, rfl⟩
    · intro w2 hw
      simp at hw
      simp [hw]
  | error e =>
    refine ⟨?_, ?_, ?_⟩
    · intro e2 he
      injection he with h2
      subst h2
      exact ⟨rfl, rfl, rfl, rfl⟩
    · intro hc; simp at hc
    · intro w hw; simp at hw

theorem joinHandleSubmit_spec_witness :
    (joinHandleSubmit { inviteCode := "ABC123", error := "", isLoading := false }
        sampleJoinApi).state.error = "Invalid invite code" ∧
    (joinHandleSubmit { inviteCode := "ABC123", error := "", isLoading := false }
        sampleJoinApi).onCloseCalled = false := by
  have h :=
    (joinHandleSubmit_spec { inviteCode := "ABC123", error := "", isLoading := false }
      sampleJoinApi (by decide)).1 (some "Invalid invite code") rfl
  refine ⟨?_, h.2.1⟩
  rw [h.1]
  decide

/-- Claim C6: the add-product submit control is disabled whenever the trimmed
name is empty or a submission is in flight, so an empty or whitespace-only
name cannot reach productsAPI.create through it. -/
theorem addProductSubmitDisabled_spec (isLoading : Bool) (name : String) :
    (strTrim name = "" → addProductSubmitDisabled isLoading name = true) ∧
    (isLoading = true → addProductSubmitDisabled isLoading name = true) := by
  constructor
  · intro h
    unfold addProductSubmitDisabled
    rw [h]
    simp
  · intro h
    unfold addProductSubmitDisabled
    rw [h]
    simp

theorem addProductSubmitDisabled_spec_witness :
    addProductSubmitDisabled false "   " = true :=
  (addProductSubmitDisabled_spec false "   ").1 (by decide)

/-- Claim C7: for a failed upload, a server response yields the
server-provided message or the status text, except that status 503 always
yields the service-not-configured message; a request with no response at all
yields the generic connectivity message. -/
theorem uploadErrorMessage_spec (err : ApiError) :
    (∀ r, err.response = some r →
      (r.status = 503 →
        uploadErrorMessage err =
          "Image upload service not configured. Please check server configuration.") ∧
      (r.status ≠ 503 →
        (∀ s, r.dataMessage = some s → s ≠ "" → uploadErrorMessage err = s) ∧
        ((r.dataMessage = none ∨ r.dataMessage = some "") → r.statusText ≠ "" →
          uploadErrorMessage err = r.statusText))) ∧
    (err.response = none → err.request = true →
      uploadErrorMessage err = "Unable to connect to server. Please check your connection.") := by
  constructor
  · intro r hr
    unfold uploadErrorMessage
    rw [hr]
    constructor
    · intro h503; simp [h503]
    · intro hne
      have hb : (r.status == 503) = false := beq_eq_false_iff_ne.mpr hne
      constructor
      · intro s hs hsne
        simp [hb, hs, jsOrStr, hsne]
      · intro hd hst
        rcases hd with hd | hd
        · simp [hb, hd, jsOrStr, jsOr2, hst]
        · simp [hb, hd, jsOrStr, jsOr2, hst]
  · intro hr hreq
    unfold uploadErrorMessage
    rw [hr, hreq]
    simp

theorem uploadErrorMessage_spec_witness :
    uploadErrorMessage
      { response := some { status := 503, statusText := "Service Unavailable", dataMessage := none },
        request := true, message := none } =
      "Image upload service not configured. Please check server configuration." ∧
    uploadErrorMessage { response := none, request := true, message := none } =
      "Unable to connect to server. Please check your connection." :=
  ⟨((uploadErrorMessage_spec
      { response := some { status := 503, statusText := "Service Unavailable", dataMessage := none },
        request := true, message := none }).1
      { status := 503, statusText := "Service Unavailable", dataMessage := none } rfl).1 rfl,
   (uploadErrorMessage_spec { response := none, request := true, message := none }).2 rfl rfl⟩

/-- Claim C2 as stated is false: the client has no update mutation flow — the
only Edit control has an empty click handler, so no REST update call and no
product-updated emission ever originates from this client. -/
theorem productUpdateFlow_counterexample :
    clientMutationEntryPoint ProductMutation.update = false ∧
    productCardEditActions = [] :=
  ⟨rfl, rfl⟩

/-- Claim C2 (amended): for the create and delete product mutations, a
successful REST call is immediately followed by a self-emitted socket event of
the corresponding kind carrying the wishlist identifier, a failed one emits
nothing, and the added event is emitted only on success; the update mutation
has no client entry point at all. -/
theorem clientMutation_rest_then_emit (id : String) (data : ProductData) (p q : Product) :
    (handleAddProductActions id data (.ok p) =
      [.restCreateProduct data, .emitProductAdded id p]) ∧
    (∀ e, handleAddProductActions id data (.error e) = [.restCreateProduct data]) ∧
    (productCardDeleteActions q true (.ok ()) =
      [.restDeleteProduct q._id, .emitProductDeleted q.wishlist q._id]) ∧
    (∀ e, productCardDeleteActions q true (.error e) = [.restDeleteProduct q._id]) ∧
    (∀ result, ClientAction.emitProductAdded id p ∈ handleAddProductActions id data result →
      result = .ok p) ∧
    clientMutationEntryPoint ProductMutation.create = true ∧
    clientMutationEntryPoint ProductMutation.delete = true ∧
    clientMutationEntryPoint ProductMutation.update = false := by
  refine ⟨rfl, fun e => rfl, rfl, fun e => rfl, ?_, rfl, rfl, rfl⟩
  intro result hmem
  cases result with
  | ok w =>
    simp [handleAddProductActions] at hmem
    simp [hmem]
  | error e =>
    simp [handleAddProductActions] at hmem

theorem clientMutation_rest_then_emit_witness :
    handleAddProductActions "w1" sampleData (Except.ok sampleProduct1) =
      [ClientAction.restCreateProduct sampleData,
       ClientAction.emitProductAdded "w1" sampleProduct1] ∧
    productCardDeleteActions sampleProduct0 true (Except.ok ()) =
      [ClientAction.restDeleteProduct "p0", ClientAction.emitProductDeleted "w1" "p0"] ∧
    (Except.ok sampleProduct1 : Except (Option String) Product) = Except.ok sampleProduct1 := by
  have h := clientMutation_rest_then_emit "w1" sampleData sampleProduct1 sampleProduct0
  exact ⟨h.1, h.2.2.1,
    h.2.2.2.2.1 (Except.ok sampleProduct1) (by decide)⟩

theorem userReactions_removeReactionEffect (user : String) (rs : List Reaction) :
    userReactions user (removeReactionEffect user rs) = [] := by
  unfold userReactions removeReactionEffect
  induction rs with
  | nil => rfl
  | cons a t ih =>
    by_cases hx : a.userId = user
    · simp [List.filter_cons, hx, bne_iff_ne, beq_iff_eq, ih]
    · simp [List.filter_cons, hx, bne_iff_ne, beq_iff_eq, ih]

theorem userReactions_of_find?_none (user : String) (rs : List Reaction)
    (h : rs.find? (fun x => x.userId == user) = none) :
    userReactions user rs = [] := by
  unfold userReactions
  rw [List.filter_eq_nil_iff]
  intro a ha
  have := List.find?_eq_none.mp h a ha
  simpa using this

theorem userReactions_append (user : String) (rs ts : List Reaction) :
    userReactions user (rs ++ ts) = userReactions user rs ++ userReactions user ts := by
  unfold userReactions
  simp [List.filter_append]

/-- Claim C5: after handleReaction the product holds at most one reaction by
the acting user: with no prior reaction the chosen emoji is added; with a
prior reaction of the same emoji the reaction is removed and nothing added
(toggle off); with a prior reaction of a different emoji it is replaced by the
chosen one. -/
theorem handleReaction_at_most_one (user emoji : String) (rs : List Reaction) :
    (userReactions user (handleReaction user emoji rs)).length ≤ 1 ∧
    (rs.find? (fun x => x.userId == user) = none →
      userReactions user (handleReaction user emoji rs) =
        [{ userId := user, emoji := emoji }]) ∧
    (∀ r, rs.find? (fun x => x.userId == user) = some r →
      (r.emoji = emoji → userReactions user (handleReaction user emoji rs) = []) ∧
      (r.emoji ≠ emoji →
        userReactions user (handleReaction user emoji rs) =
          [{ userId := user, emoji := emoji }])) := by
  cases hf : rs.find? (fun x => x.userId == user) with
  | none =>
    have hr : handleReaction user emoji rs =
        rs ++ [{ userId := user, emoji := emoji }] := by
      unfold handleReaction
      rw [hf]
      rfl
    have hval : userReactions user (handleReaction user emoji rs) =
        [{ userId := user, emoji := emoji }] := by
      rw [hr, userReactions_append, userReactions_of_find?_none user rs hf]
      simp [userReactions]
    refine ⟨by rw [hval]; simp, fun _ => hval, ?_⟩
    intro r hr2
    exact Option.noConfusion hr2
  | some r0 =>
    have hremove := userReactions_removeReactionEffect user rs
    by_cases he : r0.emoji = emoji
    · have hres : handleReaction user emoji rs = removeReactionEffect user rs := by
        unfold handleReaction
        rw [hf]
        simp [he]
      have hval : userReactions user (handleReaction user emoji rs) = [] := by
        rw [hres]; exact hremove
      refine ⟨by rw [hval]; simp, ?_, ?_⟩
      · intro h2; exact Option.noConfusion h2
      · intro r hr2
        injection hr2 with hrr
        subst hrr
        exact ⟨fun _ => hval, fun hne => absurd he hne⟩
    · have hres : handleReaction user emoji rs =
          removeReactionEffect user rs ++ [{ userId := user, emoji := emoji }] := by
        unfold handleReaction
        rw [hf]
        simp [addReactionEffect, bne_iff_ne, he]
      have hval : userReactions user (handleReaction user emoji rs) =
          [{ userId := user, emoji := emoji }] := by
        rw [hres, userReactions_append, hremove]
        simp [userReactions]
      refine ⟨by rw [hval]; simp, ?_, ?_⟩
      · intro h2; exact Option.noConfusion h2
      · intro r hr2
        injection hr2 with hrr
        subst hrr
        exact ⟨fun hemoji => absurd hemoji he, fun _ => hval⟩

theorem handleReaction_at_most_one_witness :
    userReactions "u1" (handleReaction "u1" "star" [{ userId := "u1", emoji := "star" }]) = [] :=
  ((handleReaction_at_most_one "u1" "star" [{ userId := "u1", emoji := "star" }]).2.2
    { userId := "u1", emoji := "star" } (by decide)).1 rfl
